import Mathlib

/-!
Verification of the Greendizer Python client library (two generations:
`greendizer/clients/resources/__init__.py` — the "clients" generation —
and `src/greendizer/resources/__init__.py` — the "src" generation — plus
`greendizer/resources/sellers.py`).

The generic DAL core (`greendizer.dal.Resource` / `Node`), the HTTP layer
(`greendizer.http.Request`) and the helpers module (`greendizer.base`) are
not part of the repository snapshot; where a definition embeds one of those
missing pieces its doc comment starts with "Modelled from the spec:" and it
follows the specification text.  Everything else is translated directly
from the Python source named in its doc comment.
-/

/-- Python exception values used by the embedded code paths: the client-side
`ValueError`, the interpreter-level `TypeError` and `AttributeError`, and the
spec taxonomy errors raised by the transport layer (`NotFoundError` for
404-class responses, `TransportError` carrying status and body). -/
inductive PyErr where
  | valueError (msg : String)
  | typeError (msg : String)
  | attributeError (name : String)
  | notFoundError
  | transportError (status : Nat) (body : String)
  deriving DecidableEq, Repr

/-- Python values stored in attribute maps and pending-change buffers.
`exc` is an exception *object* used as a plain value (the `Transaction.rank`
accessors return a `ValueError` instance instead of raising it). -/
inductive PyVal where
  | str (s : String)
  | int (n : Int)
  | bool (b : Bool)
  | pynone
  | exc (e : PyErr)
  deriving DecidableEq, Repr

/-- First-match lookup in an association list, the read side of a Python
dict modelled as a key-value list. -/
def alookup {α : Type} : List (String × α) → String → Option α
  | [], _ => none
  | (k, v) :: rest, name => if k = name then some v else alookup rest name

/-- `d[k] = v` on a Python dict modelled as a key-value list: replaces the
first binding of `k` if present, otherwise appends one. -/
def upsert {α : Type} : List (String × α) → String → α → List (String × α)
  | [], k, v => [(k, v)]
  | (k', v') :: rest, k, v =>
    if k' = k then (k, v) :: rest else (k', v') :: upsert rest k v

/-- Modelled from the spec: the state owned by the missing `dal.Resource` —
an opaque `id`, the `attributes` mapping holding last-known server values,
the `pending_changes` buffer of locally-set values, the `etag` concurrency
token, and the `loaded` hydration flag. -/
structure Resource where
  id : String
  attributes : List (String × PyVal)
  pending : List (String × PyVal)
  etag : String
  loaded : Bool
  deriving DecidableEq, Repr

/-- Modelled from the spec: `register_update(name, value)` writes `value`
into `pending_changes[name]`; no network call, no validation. -/
def Resource.register_update (r : Resource) (name : String) (v : PyVal) : Resource :=
  { r with pending := upsert r.pending name v }

/-- Modelled from the spec: `get_attribute(name)` returns, in priority order,
the pending local change for `name` if present, else the cached server value.
The hydration a never-loaded resource would trigger when both are absent is
represented by `attributes` already holding the last-loaded server values. -/
def Resource.get_attribute (r : Resource) (name : String) : Option PyVal :=
  match alookup r.pending name with
  | some v => some v
  | none => alookup r.attributes name

/-- Modelled from the spec: `sync(data, etag)` — the out-of-band hydration
entry point; same semantics as a successful `load`: replaces `attributes`
wholesale, adopts the new etag, sets `loaded`; pending changes survive. -/
def Resource.sync (r : Resource) (data : List (String × PyVal)) (etag : String) : Resource :=
  { r with attributes := data, etag := etag, loaded := true }

/-- Modelled from the spec: the success path of `update()` (commit) —
merges `pending_changes` into `attributes` and clears them. -/
def Resource.commit_merge (r : Resource) : Resource :=
  { r with
    attributes := r.pending.foldl (fun m p => upsert m p.1 p.2) r.attributes,
    pending := [] }

/-- Modelled from the spec: `Node.get` constructs a fresh resource proxy for
an identifier without any network access; nothing is hydrated. -/
def Node.get_resource (identifier : String) : Resource :=
  { id := identifier, attributes := [], pending := [], etag := "", loaded := false }

/-- Modelled from the spec: the result of `Node.search(query)` — a Collection
scoped by the filter expression, which the client preserves verbatim. -/
structure Collection where
  query : String
  deriving DecidableEq, Repr

/-- Modelled from the spec: `search(query)` returns a Collection carrying the
opaque filter expression; no client-side parsing or filtering happens. -/
def Node.search (query : String) : Collection :=
  { query := query }

/-- Python `str()` of a value, as used when a `%s` conversion consumes an
argument. -/
def pyStrOf : PyVal → List Char
  | .str s => s.toList
  | .int n => (toString n).toList
  | .bool b => (cond b "True" "False").toList
  | .pynone => "None".toList
  | .exc _ => "<exception>".toList

/-- Python 2 `%`-formatting over a format string (as a character list) and an
argument list, restricted to the conversions the library uses: `%s` takes any
value, `%d` requires a number, `%%` is a literal percent.  Any other character
after `%` is the `ValueError: unsupported format character`; surplus or
missing arguments are the corresponding `TypeError`s. -/
def pyFormat : List Char → List PyVal → Except PyErr (List Char)
  | [], [] => .ok []
  | [], _ :: _ => .error (.typeError "not all arguments converted during string formatting")
  | '%' :: '%' :: rest, args => (pyFormat rest args).map (fun t => '%' :: t)
  | '%' :: 's' :: rest, a :: args => (pyFormat rest args).map (fun t => pyStrOf a ++ t)
  | '%' :: 'd' :: rest, .int n :: args => (pyFormat rest args).map (fun t => (toString n).toList ++ t)
  | '%' :: 'd' :: _, _ :: _ => .error (.typeError "%d format: a number is required")
  | '%' :: 's' :: _, [] => .error (.typeError "not enough arguments for format string")
  | '%' :: 'd' :: _, [] => .error (.typeError "not enough arguments for format string")
  | '%' :: c :: _, _ => .error (.valueError (String.mk ['u'] ++ "nsupported format character " ++ String.mk [c]))
  | ['%'], _ => .error (.valueError "incomplete format")
  | c :: rest, args => (pyFormat rest args).map (fun t => c :: t)

/-- Python `fmt % (a, b, ...)` on a format string and a tuple of arguments,
returning the formatted string or the raised error. -/
def pyMod (fmt : String) (args : List PyVal) : Except PyErr String :=
  (pyFormat fmt.toList args).map String.mk

/-- Python `a / b`: on two strings this raises
`TypeError: unsupported operand type(s) for /: str and str`; the library
never divides numbers, so other operand shapes are irrelevant here and also
produce a `TypeError`. -/
def pyDiv : PyVal → PyVal → Except PyErr PyVal
  | .str _, .str _ => .error (.typeError "unsupported operand type(s) for /: \x27str\x27 and \x27str\x27")
  | _, _ => .error (.typeError "unsupported operand type(s) for /")

/-- Splits a character list on a separator character, Python `str.split`. -/
def splitOnChar : List Char → Char → List (List Char)
  | [], _ => [[]]
  | c :: rest, sep =>
    if c = sep then [] :: splitOnChar rest sep
    else
      match splitOnChar rest sep with
      | [] => [[c]]
      | h :: t => (c :: h) :: t

/-- Comparison operators of the filter-query dialect: `==` equality,
`<<` less-than, `>>` greater-than. -/
inductive QCmp where
  | qeq
  | qlt
  | qgt
  deriving DecidableEq, Repr

/-- Splits a dialect term at the first comparison operator (`==`, `<<` or
`>>`), yielding the field name, the operator and the literal value. -/
def splitOp : List Char → Option (List Char × QCmp × List Char)
  | [] => none
  | '=' :: '=' :: rest => some ([], .qeq, rest)
  | '<' :: '<' :: rest => some ([], .qlt, rest)
  | '>' :: '>' :: rest => some ([], .qgt, rest)
  | c :: rest =>
    match splitOp rest with
    | some (f, op, v) => some (c :: f, op, v)
    | none => none

/-- Lexicographic strict order on character lists by code point — the order
in which the dialect compares field values; on ISO dates and on the decimal
numerals used by the library it agrees with chronological / numeric order. -/
def charListLt : List Char → List Char → Bool
  | [], [] => false
  | [], _ :: _ => true
  | _ :: _, [] => false
  | a :: as, b :: bs => if a < b then true else if b < a then false else charListLt as bs

/-- Modelled from the spec: the meaning of one dialect term
`field==value` / `field<<value` / `field>>value` against a row valuation
giving each field its stored literal. -/
def evalTerm (row : String → Option String) (t : List Char) : Bool :=
  match splitOp t with
  | some (f, op, v) =>
    match row (String.mk f) with
    | some x =>
      match op with
      | .qeq => x == String.mk v
      | .qlt => charListLt x.toList v
      | .qgt => charListLt v x.toList
    | none => false
  | none => false

/-- Modelled from the spec: the documented meaning of a filter expression —
`|` is the logical AND of this dialect, each conjunct a field comparison. -/
def evalQuery (row : String → Option String) (q : String) : Bool :=
  (splitOnChar q.toList '|').all (evalTerm row)

/-- Row valuation built from a finite list of field-to-literal bindings. -/
def rowOf (l : List (String × String)) : String → Option String :=
  fun f => alookup l f

/-- Modelled from the spec: the decoded outcome of one HTTP exchange as the
transport layer hands it to the core — status, `Location` and `Etag` headers,
decoded body mapping, raw body. -/
structure HttpResponse where
  status : Nat
  location : String
  etag : String
  data : List (String × PyVal)
  body : String
  deriving DecidableEq, Repr

/-- Modelled from the spec: `Request.get_response` of the missing `http`
module.  Every failed network call surfaces as a raised error of the spec
taxonomy: 404-class responses raise `NotFoundError`, any other non-2xx
raises `TransportError` carrying status and body; 2xx responses are
returned to the caller. -/
def Request.get_response (resp : HttpResponse) : Except PyErr HttpResponse :=
  if resp.status = 404 then .error .notFoundError
  else if 200 ≤ resp.status ∧ resp.status < 300 then .ok resp
  else .error (.transportError resp.status resp.body)

/-- Modelled from the spec: `extract_id_from_uri` of the missing `base`
module — recovers the trailing id path segment of a resource URI (the spec
derives `uri` from parent prefix plus id, so the id is the last nonempty
segment). -/
def extract_id_from_uri (uri : String) : String :=
  String.mk (((splitOnChar uri.toList '/').filter (fun s => s ≠ [])).getLastD [])

/-- Python `str.lower()` on the code points the library handles (ASCII
letters), applied character by character. -/
def pyLower (s : String) : String := String.mk (s.toList.map Char.toLower)

/-- Python `str.upper()` on the code points the library handles (ASCII
letters), applied character by character. -/
def pyUpper (s : String) : String := String.mk (s.toList.map Char.toUpper)

/-- Python `"@" in identifier`: membership of the single character `@`. -/
def pyContainsAt (s : String) : Bool := s.toList.contains '@'

/-- `EmailBase.__init__` (clients generation lines 239-248, src generation
lines 246-255, identical): when the identifier contains `@`, the resource id
becomes `hashlib.sha1(identifier.lower()).hexdigest()`; otherwise the
identifier is used unchanged.  `sha1_hexdigest` stands for the external
`hashlib` digest, an arbitrary function of the lowercased string. -/
def EmailBase.make_id (sha1_hexdigest : String → String) (identifier : String) : String :=
  if pyContainsAt identifier then sha1_hexdigest (pyLower identifier) else identifier

/-- `Company.uri` (clients generation lines 156-162, src generation lines
173-179, identical): the source returns `"/companies/%s/" + self.id` —
Python string concatenation of the literal format string and the id. -/
def Company.uri (id : String) : String := "/companies/%s/" ++ id

/-- `Balance.uri` (clients generation lines 860-866, src generation lines
1046-1052, identical): the source returns
`'%balances/%s' % (self.__user.uri, self.currency)`. -/
def Balance.uri (user_uri : String) (currency : String) : Except PyErr String :=
  pyMod "%balances/%s" [.str user_uri, .str currency]

/-- `EmailBase.uri` (clients generation line 257): the sibling property that
does the substitution correctly, `"%semails/%s/" % (self.__user.uri, self.id)`. -/
def EmailBase.uri (user_uri : String) (id : String) : Except PyErr String :=
  pyMod "%semails/%s/" [.str user_uri, .str id]

/-- `InvoiceBase.__get_archived` (clients generation lines 396-401). -/
def InvoiceBase.get_archived (r : Resource) : Option PyVal := r.get_attribute "archived"

/-- `InvoiceBase.__set_archived` (clients generation lines 403-408):
registers a pending update on the `archived` field. -/
def InvoiceBase.set_archived (r : Resource) (v : PyVal) : Resource :=
  r.register_update "archived" v

/-- `InvoiceBase.__get_location` (src generation lines 408-413). -/
def InvoiceBase.get_location (r : Resource) : Option PyVal := r.get_attribute "location"

/-- `InvoiceBase.__set_location` (src generation lines 416-421): registers a
pending update on the `location` field. -/
def InvoiceBase.set_location (r : Resource) (v : PyVal) : Resource :=
  r.register_update "location" v

/-- `InvoiceBase.__get_flagged` (clients lines 424-429, src lines 440-445). -/
def InvoiceBase.get_flagged (r : Resource) : Option PyVal := r.get_attribute "flagged"

/-- `InvoiceBase.__set_flagged` (clients lines 431-436, src lines 448-453). -/
def InvoiceBase.set_flagged (r : Resource) (v : PyVal) : Resource :=
  r.register_update "flagged" v

/-- `InvoiceBase.__get_paid` (clients lines 438-443, src lines 456-461) —
defined in the source but never bound to a property. -/
def InvoiceBase.get_paid (r : Resource) : Option PyVal := r.get_attribute "paid"

/-- `InvoiceBase.__set_paid` (clients lines 445-450, src lines 464-469) —
defined in the source but never bound to a property. -/
def InvoiceBase.set_paid (r : Resource) (v : PyVal) : Resource :=
  r.register_update "paid" v

/-- Binding `paid = property(__get_flagged, __set_flagged)` — clients
generation line 455 and src generation line 475: the getter the `paid`
property actually invokes. -/
def InvoiceBase.paid_property_get : Resource → Option PyVal := InvoiceBase.get_flagged

/-- Binding `paid = property(__get_flagged, __set_flagged)` — clients
generation line 455 and src generation line 475: the setter the `paid`
property actually invokes. -/
def InvoiceBase.paid_property_set : Resource → PyVal → Resource := InvoiceBase.set_flagged

/-- Binding `flagged = property(__get_flagged, __set_flagged)` — clients
generation line 454 and src generation line 474. -/
def InvoiceBase.flagged_property_get : Resource → Option PyVal := InvoiceBase.get_flagged

/-- Binding `flagged = property(__get_flagged, __set_flagged)` — clients
generation line 454 and src generation line 474. -/
def InvoiceBase.flagged_property_set : Resource → PyVal → Resource := InvoiceBase.set_flagged

/-- `InvoiceNodeBase.archived` (clients line 532, src line 541): the
collection of archived invoices is `search("location==1")`. -/
def InvoiceNodeBase.archived : Collection := Node.search "location==1"

/-- `InvoiceNodeBase.trashed` (clients line 540, src line 550): the
collection of trashed invoices is `search("location==2")`. -/
def InvoiceNodeBase.trashed : Collection := Node.search "location==2"

/-- `InvoiceNodeBase.overdue` (clients lines 566-573, src lines 580-587):
`search("paid==0|location<<2|canceled==0|dueDate>>" + date.today().isoformat())`;
`today` stands for the ambient `date.today().isoformat()` string. -/
def InvoiceNodeBase.overdue (today : String) : Collection :=
  Node.search ("paid==0|location<<2|canceled==0|dueDate>>" ++ today)

/-- Follows the claim's words (for comparison with `InvoiceNodeBase.overdue`):
the filter that selects unpaid, not trashed, not canceled invoices whose due
date is strictly earlier than today — under the dialect, `dueDate<<today`. -/
def overdue_query_spec (today : String) : String :=
  "paid==0|location<<2|canceled==0|dueDate<<" ++ today

/-- Literal a stored field value shows to the dialect: strings verbatim,
numbers in decimal, booleans as the `0`/`1` numerals the node queries
(`read==0`, `flagged==1`, `paid==0`) compare them with. -/
def PyVal.queryRepr : PyVal → Option String
  | .str s => some s
  | .int n => some (toString n)
  | .bool b => some (cond b "1" "0")
  | .pynone => none
  | .exc _ => none

/-- Row valuation of a resource's server-side attributes as the dialect
sees them. -/
def Resource.queryRow (r : Resource) : String → Option String :=
  fun f => (alookup r.attributes f).bind PyVal.queryRepr

/-- `TRANSACTION_STATUS_PENDING` (clients line 22, src line 21). -/
def TRANSACTION_STATUS_PENDING : String := "pending"

/-- Outcome of one Python call: a value returned normally, or an exception
raised. -/
inductive RaiseOr (α : Type) where
  | returns (a : α)
  | raises (e : PyErr)
  deriving DecidableEq, Repr

/-- `Transaction.__get_rank` (clients lines 938-946, src lines 1134-1142):
when `self.status != TRANSACTION_STATUS_PENDING` the source executes
`return ValueError(...)` — the exception object is *returned* as the
property value, not raised; otherwise the `rank` attribute is returned. -/
def Transaction.rank_get (tx : Resource) : RaiseOr PyVal :=
  if tx.get_attribute "status" ≠ some (.str TRANSACTION_STATUS_PENDING) then
    .returns (.exc (.valueError "Rank\x27s only available for pending transactions"))
  else
    .returns ((tx.get_attribute "rank").getD .pynone)

/-- `Transaction.__set_rank` (clients lines 948-956, src lines 1145-1153):
when the status is not `pending` the source executes `return ValueError(...)`
— nothing is raised and no pending update is registered; otherwise
`self._register_update('rank', value)` runs.  The result pairs the resource
state after the call with the value the setter body returns. -/
def Transaction.rank_set (tx : Resource) (v : PyVal) : RaiseOr (Resource × PyVal) :=
  if tx.get_attribute "status" ≠ some (.str TRANSACTION_STATUS_PENDING) then
    .returns (tx, .exc (.valueError "Rank\x27s only available for pending transactions"))
  else
    .returns (tx.register_update "rank" v, .pynone)

/-- Clients generation lines 11-14:
`try: from pyxmli import CURRENCIES except ImportError: CURRENCIES = []` —
when the optional `pyxmli` module is absent the table silently becomes the
empty list.  `pyxmli` is `none` when the import fails. -/
def clients_CURRENCIES (pyxmli : Option (List String)) : List String :=
  match pyxmli with
  | some cs => cs
  | none => []

/-- `Balance.__init__` validation, clients generation lines 845-856:
`currency = currency.upper(); if len(CURRENCIES) and currency not in
CURRENCIES: raise ValueError('Invalid currency code')`.  The constructor is
a pure function of the table and the code — it issues no request. -/
def Balance.init_clients (currencies : List String) (currency : String) :
    Except PyErr String :=
  let c := pyUpper currency
  if currencies.length ≠ 0 ∧ c ∉ currencies then
    .error (.valueError "Invalid currency code")
  else
    .ok c

/-- `Balance.__init__` validation, src generation lines 1030-1041:
`currency = currency.upper(); if currency not in CURRENCIES: raise
ValueError('Invalid currency code')` — no emptiness guard, and the module
imports `CURRENCIES` unconditionally (line 7). -/
def Balance.init_src (currencies : List String) (currency : String) :
    Except PyErr String :=
  let c := pyUpper currency
  if c ∉ currencies then
    .error (.valueError "Invalid currency code")
  else
    .ok c

/-- `TransactionNode.__create_transaction` (clients lines 1029-1043, src
lines 1235-1249, identical): POSTs to the node URI, and
`if response.get_status_code() == 201:` builds the transaction from the
`Location` id, syncs it with the response body and etag, and returns it;
any other outcome of the `if` falls off the end of the function, returning
`None`.  The POST exchange itself is the spec-modelled
`Request.get_response`. -/
def TransactionNode.create_transaction (resp : HttpResponse) :
    Except PyErr (Option Resource) :=
  match Request.get_response resp with
  | .error e => .error e
  | .ok r =>
    if r.status = 201 then
      .ok (some ((Node.get_resource (extract_id_from_uri r.location)).sync r.data r.etag))
    else
      .ok none

/-- `TransactionNode.pay` (clients lines 1045-1053, src lines 1252-1260):
delegates to `__create_transaction` with payment data; the request body does
not change the control flow modelled here. -/
def TransactionNode.pay (resp : HttpResponse) : Except PyErr (Option Resource) :=
  TransactionNode.create_transaction resp

/-- `TransactionNode.withdrawal` (clients lines 1055-1063, src lines
1263-1271): delegates to `__create_transaction` with withdrawal data. -/
def TransactionNode.withdrawal (resp : HttpResponse) : Except PyErr (Option Resource) :=
  TransactionNode.create_transaction resp

/-- `PaymentNode.add` (clients lines 680-700, src lines 698-718, identical):
POSTs the payment, and `if response.get_status_code() == 201:` syncs and
returns the new payment (after reloading the invoice); any other outcome of
the `if` falls off the end of the function, returning `None`. -/
def PaymentNode.add (resp : HttpResponse) : Except PyErr (Option Resource) :=
  match Request.get_response resp with
  | .error e => .error e
  | .ok r =>
    if r.status = 201 then
      .ok (some ((Node.get_resource (extract_id_from_uri r.location)).sync r.data r.etag))
    else
      .ok none

/-- Modelled from the spec: `is_empty_or_none` of the missing `base` module —
the client-side check for an empty required argument: `None` or the empty
string. -/
def is_empty_or_none : Option String → Bool
  | none => true
  | some s => s.isEmpty

/-- Outcome of `ThreadNodeBase.open`: a raised `ValueError`, a raised
`AttributeError`, a raised transport-taxonomy error, the synced thread, or
the silent `None` fall-through. -/
inductive OpenOutcome where
  | raisedValue (msg : String)
  | raisedAttribute (name : String)
  | raisedTransport (e : PyErr)
  | returnedThread (t : Resource)
  | returnedNone
  deriving DecidableEq, Repr

/-- Result of an `open` call together with whether a network request was
issued before the call ended. -/
structure OpenResult where
  outcome : OpenOutcome
  request_sent : Bool
  deriving DecidableEq, Repr

/-- `ThreadNodeBase.open` (src generation lines 867-892).  The three
`is_empty_or_none` validations raise `ValueError` in order, before any
request.  The request construction then reads `self.__seller.client`: inside
the class body `ThreadNodeBase` the name mangles to
`_ThreadNodeBase__seller`, an attribute no code in the repository assigns
(`ThreadNodeBase` has no `__init__` and no `__seller` assignment, and the
`self.__seller = seller` in `sellers.py`'s subclass `ThreadNode` mangles to
`_ThreadNode__seller`), so the read raises `AttributeError` — modelled by
the `seller_attr` argument, `none` on every reachable instance.  Were the
attribute present, the POST is issued and
`if response.get_status_code() == 201:` syncs and returns the thread, any
other `if` outcome falling through to `None`. -/
def ThreadNodeBase.open_model (seller_attr : Option Unit)
    (recipient_id subject message : Option String) (resp : HttpResponse) :
    OpenResult :=
  if is_empty_or_none recipient_id then
    { outcome := .raisedValue "Invalid recipient ID", request_sent := false }
  else if is_empty_or_none subject then
    { outcome := .raisedValue "Invalid subject", request_sent := false }
  else if is_empty_or_none message then
    { outcome := .raisedValue "Invalid message", request_sent := false }
  else
    match seller_attr with
    | none => { outcome := .raisedAttribute "_ThreadNodeBase__seller", request_sent := false }
    | some _ =>
      match Request.get_response resp with
      | .error e => { outcome := .raisedTransport e, request_sent := true }
      | .ok r =>
        if r.status = 201 then
          { outcome := .returnedThread
              ((Node.get_resource (extract_id_from_uri r.location)).sync r.data r.etag),
            request_sent := true }
        else
          { outcome := .returnedNone, request_sent := true }

/-- `ThreadNodeBase.open` as it runs on any instance the library can build:
the mangled `_ThreadNodeBase__seller` attribute is never assigned. -/
def ThreadNodeBase.open_call (recipient_id subject message : Option String)
    (resp : HttpResponse) : OpenResult :=
  ThreadNodeBase.open_model none recipient_id subject message resp

/-- `MAX_INVOICES_PER_REQUEST` (`sellers.py` line 17). -/
def MAX_INVOICES_PER_REQUEST : Nat := 100

/-- The argument of the `raise ValueError(...)` in `InvoiceNode.send`
(`sellers.py` lines 159-160): the source expression is
`'A request can only carry a maximum of %d ' / 'invoices' % MAX_INVOICES_PER_REQUEST`;
`/` and `%` share precedence and associate left, so Python first evaluates
the string division. -/
def send_limit_message : Except PyErr PyVal :=
  match pyDiv (.str "A request can only carry a maximum of %d ") (.str "invoices") with
  | .error e => .error e
  | .ok m =>
    match m with
    | .str f => (pyMod f [.int (Int.ofNat MAX_INVOICES_PER_REQUEST)]).map PyVal.str
    | _ => .error (.typeError "unsupported operand type(s) for %")

/-- `InvoiceNode.send` length guard (`sellers.py` lines 158-160):
`if len(invoices) > MAX_INVOICES_PER_REQUEST: raise ValueError(<message>)`.
When the guard fires, evaluating the message expression itself raises (its
`TypeError` pre-empts the intended `ValueError`); below the limit no error
is raised by the guard.  The guard precedes every network interaction of
`send`. -/
def InvoiceNode.send_limit_check (numInvoices : Nat) : Option PyErr :=
  if numInvoices > MAX_INVOICES_PER_REQUEST then
    some (match send_limit_message with
      | .error e => e
      | .ok m => .valueError (String.mk (pyStrOf m)))
  else
    none

/-- Whether a Python call outcome is a raised exception. -/
def raised {α : Type} : Except PyErr α → Bool
  | .error _ => true
  | .ok _ => false

/-- A loaded, clean inbox invoice: unread, unflagged, unpaid, location 0. -/
def inv_inbox : Resource :=
  { id := "inv-1",
    attributes :=
      [("read", .bool false), ("flagged", .bool false),
       ("paid", .bool false), ("location", .int 0)],
    pending := [],
    etag := "W-0",
    loaded := true }

/-- A loaded transaction whose status is `processed`, with a server-side
rank. -/
def tx_processed : Resource :=
  { id := "33",
    attributes := [("status", .str "processed"), ("rank", .int 4)],
    pending := [],
    etag := "W-1",
    loaded := true }

/-- A loaded transaction whose status is `pending`, with a server-side
rank. -/
def tx_pending : Resource :=
  { id := "34",
    attributes := [("status", .str "pending"), ("rank", .int 7)],
    pending := [],
    etag := "W-2",
    loaded := true }

/-- A `201 Created` response for a new thread/transaction/payment. -/
def resp_201 : HttpResponse :=
  { status := 201,
    location := "/sellers/me/threads/th-9/",
    etag := "W-9",
    data := [("subject", .str "Hello")],
    body := "" }

/-- A `200 OK` response: a success status that is not `201 Created`. -/
def resp_200 : HttpResponse :=
  { status := 200,
    location := "/sellers/me/threads/th-9/",
    etag := "W-9",
    data := [("subject", .str "Hello")],
    body := "" }

/-- A `500` failure response. -/
def resp_500 : HttpResponse :=
  { status := 500,
    location := "",
    etag := "",
    data := [],
    body := "internal error" }

/-- Dialect row of an unpaid, inbox, not-canceled invoice due 2020-01-01 —
past due on 2026-10-12. -/
def row_past_due : String → Option String :=
  rowOf [("paid", "0"), ("location", "0"), ("canceled", "0"), ("dueDate", "2020-01-01")]

/-- Dialect row of an unpaid, inbox, not-canceled invoice due 2030-01-01 —
not yet due on 2026-10-12. -/
def row_future_due : String → Option String :=
  rowOf [("paid", "0"), ("location", "0"), ("canceled", "0"), ("dueDate", "2030-01-01")]

theorem alookup_upsert_self {α : Type} (l : List (String × α)) (k : String) (v : α) :
    alookup (upsert l k v) k = some v := by
  induction l with
  | nil => simp [upsert, alookup]
  | cons hd tl ih =>
    by_cases h : hd.1 = k
    · simp [upsert, h, alookup]
    · simp [upsert, h, alookup, ih]

theorem alookup_upsert_ne {α : Type} (l : List (String × α)) (k k' : String) (v : α)
    (h : k' ≠ k) : alookup (upsert l k v) k' = alookup l k' := by
  have h' : ¬ k = k' := fun hh => h hh.symm
  induction l with
  | nil => simp [upsert, alookup, h']
  | cons hd tl ih =>
    obtain ⟨k1, v1⟩ := hd
    by_cases hk : k1 = k
    · subst hk
      simp [upsert, alookup, h']
    · simp [upsert, alookup, hk]
      split <;> simp [ih]

/-- Claim C1: the claim states that the `paid` property reads and writes the
attribute field `paid`, the `flagged` property the field `flagged`, the two
never sharing one underlying field, so that setting `paid` registers a
pending update keyed `paid` and leaves `flagged` unchanged.  The source
instead binds `paid = property(__get_flagged, __set_flagged)` in both
generations: setting `paid` registers the pending update under `flagged`
(none under `paid`), and the value observed through `flagged` changes. -/
theorem C1_paid_property_aliases_flagged :
    (∀ r v, InvoiceBase.paid_property_set r v = Resource.register_update r "flagged" v) ∧
    (∀ r, InvoiceBase.paid_property_get r = Resource.get_attribute r "flagged") ∧
    alookup (InvoiceBase.paid_property_set inv_inbox (.bool true)).pending "paid" = none ∧
    alookup (InvoiceBase.paid_property_set inv_inbox (.bool true)).pending "flagged"
      = some (.bool true) ∧
    InvoiceBase.flagged_property_get inv_inbox = some (.bool false) ∧
    InvoiceBase.flagged_property_get (InvoiceBase.paid_property_set inv_inbox (.bool true))
      = some (.bool true) := by
  refine ⟨fun r v => rfl, fun r => rfl, ?_, ?_, ?_, ?_⟩ <;> decide

/-- Claim C3: the claim states that reading or writing `rank` on a
non-pending transaction raises a `ValueError` (and writing registers no
pending update), while on a pending transaction reading returns the `rank`
attribute and writing registers a pending update on `rank`.  The source
accessors execute `return ValueError(...)` instead of `raise`: on the
non-pending transaction the getter returns the exception object as the
property value and nothing is raised; the remaining behavior matches. -/
theorem C3_rank_accessors_return_valueerror_object :
    Transaction.rank_get tx_processed
      = .returns (.exc (.valueError "Rank\x27s only available for pending transactions")) ∧
    (∀ e, Transaction.rank_get tx_processed ≠ .raises e) ∧
    Transaction.rank_set tx_processed (.int 1)
      = .returns (tx_processed, .exc (.valueError "Rank\x27s only available for pending transactions")) ∧
    tx_processed.pending = [] ∧
    Transaction.rank_get tx_pending = .returns (.int 7) ∧
    Transaction.rank_set tx_pending (.int 3)
      = .returns ({ tx_pending with pending := [("rank", .int 3)] }, .pynone) := by
  have h1 : Transaction.rank_get tx_processed
      = .returns (.exc (.valueError "Rank\x27s only available for pending transactions")) := by
    decide
  refine ⟨h1, fun e h => by rw [h1] at h; exact RaiseOr.noConfusion h, by decide, rfl, by decide, by decide⟩

/-- Claim C4: the claim states that `Company.uri` for id `x` equals
`"/companies/" ++ x ++ "/"` and that `Balance.uri` evaluates without raising
to the user URI followed by `"balances/"` and the currency code.  The source
instead computes `"/companies/%s/" + self.id` — concatenating the literal
format string — and `'%balances/%s' % (...)`, whose leading `%b` is an
unsupported format character, so the property raises a formatting
`ValueError`; the correctly spelled format strings give the claimed values
(`EmailBase.uri` shows the working pattern). -/
theorem C4_uri_construction_defects :
    Company.uri "acme" = "/companies/%s/acme" ∧
    Company.uri "acme" ≠ "/companies/acme/" ∧
    Balance.uri "/users/me/" "EUR" = .error (.valueError "unsupported format character b") ∧
    pyMod "%sbalances/%s" [.str "/users/me/", .str "EUR"] = .ok "/users/me/balances/EUR" ∧
    EmailBase.uri "/users/me/" "walter" = .ok "/users/me/emails/walter/" := by
  refine ⟨rfl, by decide, rfl, rfl, rfl⟩

/-- Claim C10: the claim states that `InvoiceNode.send` with more than 100
invoices fails with a `ValueError` before any request, and below the limit
raises no such error.  The guard does fire before any request and below the
limit stays silent, but the raise argument
`'A request can only carry a maximum of %d ' / 'invoices' % MAX_INVOICES_PER_REQUEST`
divides two strings (`/` and `%` associate left), so evaluating it raises a
`TypeError`, never the intended `ValueError`; the last conjunct shows the
message the intended concatenation would have produced. -/
theorem C10_send_limit_guard_raises_typeerror :
    InvoiceNode.send_limit_check 101
      = some (.typeError "unsupported operand type(s) for /: \x27str\x27 and \x27str\x27") ∧
    (∀ m, InvoiceNode.send_limit_check 101 ≠ some (.valueError m)) ∧
    InvoiceNode.send_limit_check 100 = none ∧
    InvoiceNode.send_limit_check 0 = none ∧
    pyMod "A request can only carry a maximum of %d invoices" [.int 100]
      = .ok "A request can only carry a maximum of 100 invoices" := by
  refine ⟨rfl, fun m => by simp [InvoiceNode.send_limit_check, send_limit_message, pyDiv, MAX_INVOICES_PER_REQUEST], rfl, rfl, rfl⟩

/-- Claim C5: the claim states that the `overdue` collection passes `search`
a query that, under the documented dialect, selects unpaid, not trashed,
not canceled invoices whose due date is strictly EARLIER than today.  The
source builds `"paid==0|location<<2|canceled==0|dueDate>>" + today`: under
the dialect (`>>` greater-than, `|` AND) that query rejects the past-due
invoice (which the filter following the claim's words accepts) and accepts
the invoice whose due date lies in the future. -/
theorem C5_overdue_query_selects_future_not_past :
    (InvoiceNodeBase.overdue "2026-10-12").query
      = "paid==0|location<<2|canceled==0|dueDate>>2026-10-12" ∧
    evalQuery row_past_due (InvoiceNodeBase.overdue "2026-10-12").query = false ∧
    evalQuery row_past_due (overdue_query_spec "2026-10-12") = true ∧
    evalQuery row_future_due (InvoiceNodeBase.overdue "2026-10-12").query = true ∧
    evalQuery row_future_due (overdue_query_spec "2026-10-12") = false := by
  refine ⟨rfl, by decide, by decide, by decide, by decide⟩

/-- Claim C6 counterexample: the claim states that the setter marking an
invoice archived registers a pending update on the same `location` field the
node's `archived` (`location==1`) collection filters on.  In the clients
generation `InvoiceBase.archived` registers the update under the distinct
field `archived`: the pending buffer holds no `location` key, and after a
commit the inbox invoice still fails the node's `location==1` query. -/
theorem C6_counterexample_clients_archived_field :
    (InvoiceBase.set_archived inv_inbox (.bool true)).pending = [("archived", .bool true)] ∧
    alookup (InvoiceBase.set_archived inv_inbox (.bool true)).pending "location" = none ∧
    InvoiceNodeBase.archived.query = "location==1" ∧
    evalQuery
      (Resource.queryRow (Resource.commit_merge (InvoiceBase.set_archived inv_inbox (.bool true))))
      InvoiceNodeBase.archived.query = false := by
  refine ⟨rfl, rfl, rfl, by decide⟩

/-- Claim C6 as amended: in the src generation the `location` property's
setter registers its pending update on the `location` field — the same field
the node's `archived` (`location==1`) and `trashed` (`location==2`)
collections filter on — so a committed `location = 1` (resp. `2`) on a clean
invoice makes it match the `archived` (resp. `trashed`) query; in the
clients generation the archived setter instead writes the separate
`archived` field. -/
theorem C6_src_location_field_consistent (id etag : String)
    (attrs : List (String × PyVal)) (loaded : Bool) :
    (InvoiceBase.set_location { id := id, attributes := attrs, pending := [], etag := etag, loaded := loaded } (.int 1)).pending
      = [("location", .int 1)] ∧
    InvoiceNodeBase.archived.query = "location==1" ∧
    InvoiceNodeBase.trashed.query = "location==2" ∧
    evalQuery
      (Resource.queryRow (Resource.commit_merge
        (InvoiceBase.set_location { id := id, attributes := attrs, pending := [], etag := etag, loaded := loaded } (.int 1))))
      InvoiceNodeBase.archived.query = true ∧
    evalQuery
      (Resource.queryRow (Resource.commit_merge
        (InvoiceBase.set_location { id := id, attributes := attrs, pending := [], etag := etag, loaded := loaded } (.int 2))))
      InvoiceNodeBase.trashed.query = true := by
  have hrow1 : Resource.queryRow (Resource.commit_merge
      (InvoiceBase.set_location { id := id, attributes := attrs, pending := [], etag := etag, loaded := loaded } (.int 1))) "location" = some "1" := by
    show (alookup (upsert attrs "location" (.int 1)) "location").bind PyVal.queryRepr = some "1"
    rw [alookup_upsert_self]
    rfl
  have hrow2 : Resource.queryRow (Resource.commit_merge
      (InvoiceBase.set_location { id := id, attributes := attrs, pending := [], etag := etag, loaded := loaded } (.int 2))) "location" = some "2" := by
    show (alookup (upsert attrs "location" (.int 2)) "location").bind PyVal.queryRepr = some "2"
    rw [alookup_upsert_self]
    rfl
  refine ⟨rfl, rfl, rfl, ?_, ?_⟩
  · show ((match Resource.queryRow (Resource.commit_merge
        (InvoiceBase.set_location { id := id, attributes := attrs, pending := [], etag := etag, loaded := loaded } (.int 1))) "location" with
      | some x => x == "1"
      | none => false) && true) = true
    rw [hrow1]
    rfl
  · show ((match Resource.queryRow (Resource.commit_merge
        (InvoiceBase.set_location { id := id, attributes := attrs, pending := [], etag := etag, loaded := loaded } (.int 2))) "location" with
      | some x => x == "2"
      | none => false) && true) = true
    rw [hrow2]
    rfl

/-- Claim C7 counterexample: the claim states that a Balance constructed
with a currency code whose uppercase form is outside the `CURRENCIES` table
raises a `ValueError`, absence of the table being an explicit
"validation disabled" configuration rather than a silent empty-list
fallback.  In the clients generation a failed `pyxmli` import silently sets
`CURRENCIES = []`, and the `len(CURRENCIES) and ...` guard then accepts the
invalid code `zzz` without raising. -/
theorem C7_counterexample_empty_table_accepts_any_code :
    clients_CURRENCIES none = [] ∧
    Balance.init_clients (clients_CURRENCIES none) "zzz" = .ok "ZZZ" ∧
    pyUpper "zzz" ∉ clients_CURRENCIES none := by
  refine ⟨rfl, rfl, by decide⟩

/-- Claim C7 as amended: when the `CURRENCIES` table is non-empty, a
currency code whose uppercase form is not in it makes both generations'
`Balance.__init__` raise `ValueError` (the constructor issues no request);
but when the clients generation's `pyxmli` import fails, the table silently
falls back to the empty list and `Balance.__init__` accepts every currency
code without validation. -/
theorem C7_nonempty_table_validates (cs : List String) (c : String)
    (hne : cs ≠ []) (hmem : pyUpper c ∉ cs) :
    Balance.init_clients cs c = .error (.valueError "Invalid currency code") ∧
    Balance.init_src cs c = .error (.valueError "Invalid currency code") ∧
    (∀ code, Balance.init_clients (clients_CURRENCIES none) code = .ok (pyUpper code)) := by
  have hlen : cs.length ≠ 0 := by
    intro h
    exact hne (List.length_eq_zero.mp h)
  refine ⟨?_, ?_, fun code => rfl⟩
  · simp [Balance.init_clients, hlen, hmem]
  · simp [Balance.init_src, hmem]

theorem C7_nonempty_table_validates_witness :
    Balance.init_clients ["EUR", "USD"] "zzz" = .error (.valueError "Invalid currency code") ∧
    Balance.init_src ["EUR", "USD"] "zzz" = .error (.valueError "Invalid currency code") ∧
    (∀ code, Balance.init_clients (clients_CURRENCIES none) code = .ok (pyUpper code)) :=
  C7_nonempty_table_validates ["EUR", "USD"] "zzz" (by decide) (by decide)

/-- Claim C8: the claim states that `ThreadNodeBase.open` raises a
`ValueError` before any request when one of the three arguments is empty or
`None`, and otherwise issues the POST and returns the thread synced from a
201 response.  The validations do behave as claimed, but on every instance
the library can build the happy path reads the unassigned mangled attribute
`_ThreadNodeBase__seller` and raises `AttributeError` before any request is
sent; the final conjunct shows the claimed POST-and-sync behavior the code
exhibits once an assigned seller attribute is supplied. -/
theorem C8_open_validates_then_crashes_before_post :
    ThreadNodeBase.open_call none (some "Hello") (some "World") resp_201
      = { outcome := .raisedValue "Invalid recipient ID", request_sent := false } ∧
    ThreadNodeBase.open_call (some "") (some "Hello") (some "World") resp_201
      = { outcome := .raisedValue "Invalid recipient ID", request_sent := false } ∧
    ThreadNodeBase.open_call (some "buyer-1") none (some "World") resp_201
      = { outcome := .raisedValue "Invalid subject", request_sent := false } ∧
    ThreadNodeBase.open_call (some "buyer-1") (some "Hello") (some "") resp_201
      = { outcome := .raisedValue "Invalid message", request_sent := false } ∧
    ThreadNodeBase.open_call (some "buyer-1") (some "Hello") (some "World") resp_201
      = { outcome := .raisedAttribute "_ThreadNodeBase__seller", request_sent := false } ∧
    ThreadNodeBase.open_model (some ()) (some "buyer-1") (some "Hello") (some "World") resp_201
      = { outcome := .returnedThread ((Node.get_resource "th-9").sync resp_201.data resp_201.etag),
          request_sent := true } := by
  refine ⟨rfl, rfl, rfl, rfl, rfl, by decide⟩

/-- Claim C9: for an `EmailBase` built from identifier `s`, the id is the
SHA-1 hex digest of `s` lowercased when `s` contains `@` and `s` itself
otherwise (`sha1_hexdigest` stands for the external `hashlib` digest
function), so two instances built from the same email address — which both
contain `@` — in different letter cases receive the same id. -/
theorem C9_email_id_sha1_of_lowercase (sha1_hexdigest : String → String)
    (s s1 s2 : String)
    (h1 : pyContainsAt s1 = true) (h2 : pyContainsAt s2 = true)
    (hlow : pyLower s1 = pyLower s2) :
    (pyContainsAt s = true →
      EmailBase.make_id sha1_hexdigest s = sha1_hexdigest (pyLower s)) ∧
    (pyContainsAt s = false → EmailBase.make_id sha1_hexdigest s = s) ∧
    EmailBase.make_id sha1_hexdigest s1 = EmailBase.make_id sha1_hexdigest s2 := by
  refine ⟨fun h => by simp [EmailBase.make_id, h], fun h => by simp [EmailBase.make_id, h], ?_⟩
  simp [EmailBase.make_id, h1, h2, hlow]

theorem C9_email_id_sha1_of_lowercase_witness :
    EmailBase.make_id (fun s => s ++ "-digest") "John@Example.COM"
      = EmailBase.make_id (fun s => s ++ "-digest") "john@example.com" :=
  (C9_email_id_sha1_of_lowercase (fun s => s ++ "-digest") "nobody"
    "John@Example.COM" "john@example.com" (by decide) (by decide) (by decide)).2.2

/-- Claim C2 counterexample: the claim states that every creating call whose
response status is not 201 surfaces as a raised error and never silently
returns `None`.  A `200 OK` response — a success the transport does not turn
into an error — is not 201, yet `PaymentNode.add`, `TransactionNode.pay` and
`TransactionNode.withdrawal` all fall off the end of the `if` and return
`None` without raising. -/
theorem C2_counterexample_status200_returns_none :
    resp_200.status ≠ 201 ∧
    TransactionNode.create_transaction resp_200 = .ok none ∧
    TransactionNode.pay resp_200 = .ok none ∧
    TransactionNode.withdrawal resp_200 = .ok none ∧
    PaymentNode.add resp_200 = .ok none := by
  refine ⟨by decide, rfl, rfl, rfl, rfl⟩

/-- Claim C2 as amended: for every response whose status is an actual
failure (non-2xx), the creating calls surface a raised taxonomy error
carrying diagnostics — the raise happens in the spec-modelled
`Request.get_response`; only for a 2xx status other than 201 do the calls
return `None` silently. -/
theorem C2_non2xx_failures_raise (resp : HttpResponse)
    (h : resp.status < 200 ∨ 300 ≤ resp.status) :
    raised (TransactionNode.create_transaction resp) = true ∧
    raised (TransactionNode.pay resp) = true ∧
    raised (TransactionNode.withdrawal resp) = true ∧
    raised (PaymentNode.add resp) = true := by
  have hg : ∃ e, Request.get_response resp = .error e := by
    unfold Request.get_response
    by_cases h4 : resp.status = 404
    · exact ⟨.notFoundError, by simp [h4]⟩
    · have hno : ¬ (200 ≤ resp.status ∧ resp.status < 300) := by omega
      exact ⟨.transportError resp.status resp.body, by simp [h4, hno]⟩
  obtain ⟨e, he⟩ := hg
  refine ⟨?_, ?_, ?_, ?_⟩ <;>
    simp [TransactionNode.create_transaction, TransactionNode.pay,
      TransactionNode.withdrawal, PaymentNode.add, he, raised]

theorem C2_non2xx_failures_raise_witness :
    raised (TransactionNode.create_transaction resp_500) = true ∧
    raised (TransactionNode.pay resp_500) = true ∧
    raised (TransactionNode.withdrawal resp_500) = true ∧
    raised (PaymentNode.add resp_500) = true :=
  C2_non2xx_failures_raise resp_500 (Or.inr (by decide))
